import Mathlib

set_option maxRecDepth 40000

/-!
Shallow embedding of `agentipy/langchain/__init__.py`: the LangChain tool
adapters around the Solana agent kit.  Python JSON values are modelled by
`JValue`, Python exceptions by `PyExc`, and each adapter's `_arun` body by a
Lean function that returns the produced result dictionary together with the
list of delegate calls it performed (the agent-kit collaborator is passed in
as a function so that delegate failures can be exercised).
-/

namespace Agentipy

/-- Values of the Python data model observable by the adapters: the result of
`json.loads` plus the values adapters build.  `float` carries an exact
rational since no adapter performs float arithmetic (only type inspection and
bound comparison). -/
inductive JValue where
  | str (s : String)
  | int (n : Int)
  | float (q : ℚ)
  | bool (b : Bool)
  | null
  | list (xs : List JValue)
  | dict (fields : List (String × JValue))

/-- A parsed JSON object / Python dict, in insertion order. -/
abbrev JDict := List (String × JValue)

/-- A Python exception as observed by the adapters: its class name, its
`str(e)` message, and an optional `code` attribute. -/
structure PyExc where
  kind : String
  msg : String
  code : Option String := none
deriving DecidableEq, Repr

/-- `getattr(e, "code", "UNKNOWN_ERROR")`. -/
def PyExc.codeOrUnknown (e : PyExc) : String :=
  e.code.getD "UNKNOWN_ERROR"

/-- Python runtime type tags used by schema validation. -/
inductive PyType where
  | pystr | pyint | pyfloat | pybool | pynone | pylist | pydict
deriving DecidableEq, Repr

/-- Runtime type of a value. -/
def JValue.typeOf : JValue → PyType
  | .str _ => .pystr
  | .int _ => .pyint
  | .float _ => .pyfloat
  | .bool _ => .pybool
  | .null => .pynone
  | .list _ => .pylist
  | .dict _ => .pydict

/-- Python truthiness of a value. -/
def JValue.truthy : JValue → Bool
  | .str s => decide (s ≠ "")
  | .int n => decide (n ≠ 0)
  | .float q => decide (q ≠ 0)
  | .bool b => b
  | .null => false
  | .list xs => !xs.isEmpty
  | .dict d => !d.isEmpty

/-- One schema entry: acceptable runtime types (a tuple in the source),
the required flag, and optional inclusive numeric bounds. -/
structure FieldSpec where
  type : List PyType
  required : Bool
  min : Option Int := none
  max : Option Int := none
deriving DecidableEq, Repr

/-- An adapter's declared schema, in declaration order. -/
abbrev Schema := List (String × FieldSpec)

/-- Numeric magnitude of a value, when it is a number. -/
def numVal : JValue → Option ℚ
  | .int n => some (n : ℚ)
  | .float q => some q
  | _ => none

/-- Does a present value conform to the schema entry's accepted types? -/
def typeOk (spec : FieldSpec) (v : JValue) : Bool :=
  decide (v.typeOf ∈ spec.type)

/-- Does a present value respect the schema entry's inclusive bounds?
Non-numeric values are not bound-checked. -/
def boundsOk (spec : FieldSpec) (v : JValue) : Bool :=
  match numVal v with
  | none => true
  | some q =>
    (match spec.min with
     | none => true
     | some m => decide ((m : ℚ) ≤ q)) &&
    (match spec.max with
     | none => true
     | some M => decide (q ≤ (M : ℚ)))

/-- First schema field that is required but absent from the input. -/
def firstMissingRequired (data : JDict) (schema : Schema) : Option String :=
  (schema.find? fun p => p.2.required && (data.lookup p.1).isNone).map (·.1)

/-- First schema field present in the input with a non-conforming type. -/
def firstTypeViolation (data : JDict) (schema : Schema) : Option String :=
  (schema.find? fun p =>
    match data.lookup p.1 with
    | some v => !(typeOk p.2 v)
    | none => false).map (·.1)

/-- First schema field present in the input with a numeric value outside the
declared inclusive bounds. -/
def firstBoundViolation (data : JDict) (schema : Schema) : Option String :=
  (schema.find? fun p =>
    match data.lookup p.1 with
    | some v => !(boundsOk p.2 v)
    | none => false).map (·.1)

/-- Modelled from the spec: `validate_input` is imported from
`agentipy.helpers`, whose source is not part of the repository snapshot.
Following spec section 4.1: fail fast with the first violated rule, in
precedence order (1) required-field presence with message
`Missing required field: <name>`, (2) type conformance of present fields with
a message identifying the field, (3) inclusive numeric bounds of present
fields with a message identifying the field; input keys absent from the
schema are ignored; no coercion and no mutation.  The second component of the
result is the post-call state of the `input` mapping (the validator only
inspects, so it is the input itself). -/
def validate_input (data : JDict) (schema : Schema) :
    Except PyExc Unit × JDict :=
  match firstMissingRequired data schema with
  | some name =>
    (.error ⟨"ValueError", "Missing required field: " ++ name, none⟩, data)
  | none =>
    match firstTypeViolation data schema with
    | some name =>
      (.error ⟨"ValueError", "Invalid type for field: " ++ name, none⟩, data)
    | none =>
      match firstBoundViolation data schema with
      | some name =>
        (.error ⟨"ValueError", "Invalid value for field: " ++ name, none⟩, data)
      | none => (.ok (), data)

/-- `solders.pubkey.Pubkey` (external library), abstracted as a wrapper
around the textual address; `from_string` is treated as total since address
well-formedness is the external library's concern. -/
structure Pubkey where
  key : String
deriving DecidableEq, Repr

def Pubkey.from_string (s : String) : Pubkey := ⟨s⟩

/-- `d[k]` on a Python dict: the value, or a `KeyError`. -/
def dictGet (d : JDict) (k : String) : Except PyExc JValue :=
  match d.lookup k with
  | some v => .ok v
  | none => .error ⟨"KeyError", k, none⟩

/-- `v[k]` on an arbitrary value: `TypeError` when `v` is not a dict. -/
def subscr (v : JValue) (k : String) : Except PyExc JValue :=
  match v with
  | .dict d => dictGet d k
  | _ => .error ⟨"TypeError", "value is not subscriptable", none⟩

/-- Using a non-mapping where a dict is required raises a `TypeError`. -/
def asDict : JValue → Except PyExc JDict
  | .dict d => .ok d
  | _ => .error ⟨"TypeError", "argument is not a mapping", none⟩

def asStr : JValue → Except PyExc String
  | .str s => .ok s
  | _ => .error ⟨"TypeError", "expected a string", none⟩

def asInt : JValue → Except PyExc Int
  | .int n => .ok n
  | _ => .error ⟨"TypeError", "expected an integer", none⟩

/-- The outcome of `json.loads(input)` followed by use as a mapping.
`json.loads` is Python standard library (external), so adapters are modelled
directly on its outcome: a raised exception or a parsed value. -/
def stage : Except PyExc JValue → Except PyExc JDict
  | .error e => .error e
  | .ok v => asDict v

/-- The uniform error envelope of the standard adapters:
`{"status": "error", "message": str(e), "code": getattr(e, "code", "UNKNOWN_ERROR")}`. -/
def errEnvelope (e : PyExc) : JDict :=
  [("status", .str "error"),
   ("message", .str e.msg),
   ("code", .str e.codeOrUnknown)]

/-! ## SolanaTransferTool -/

/-- The schema declared in `SolanaTransferTool._arun`. -/
def transferSchema : Schema :=
  [("to", ⟨[.pystr], true, none, none⟩),
   ("amount", ⟨[.pyint], true, some 1, none⟩),
   ("mint", ⟨[.pystr], false, none, none⟩)]

/-- Arguments of one `solana_kit.transfer` delegate call. -/
structure TransferCall where
  recipient : Pubkey
  amount : Int
  mint : Option Pubkey
deriving DecidableEq, Repr

/-- `data.get("mint") and Pubkey.from_string(data["mint"])`: absent or falsy
values yield no pubkey; a truthy non-string would make `from_string` raise. -/
def mintArg : Option JValue → Except PyExc (Option Pubkey)
  | none => .ok none
  | some v =>
    if v.truthy then (asStr v).map (fun s => some (Pubkey.from_string s))
    else .ok none

/-- Argument extraction of `SolanaTransferTool._arun` after validation. -/
def transferArgs (data : JDict) : Except PyExc TransferCall :=
  match dictGet data "to" with
  | .error e => .error e
  | .ok toV =>
    match asStr toV with
    | .error e => .error e
    | .ok toS =>
      match mintArg (data.lookup "mint") with
      | .error e => .error e
      | .ok mint =>
        match dictGet data "amount" with
        | .error e => .error e
        | .ok amtV =>
          match asInt amtV with
          | .error e => .error e
          | .ok amt => .ok ⟨Pubkey.from_string toS, amt, mint⟩

/-- The success dictionary returned by `SolanaTransferTool._arun`. -/
def transferSuccess (data : JDict) (c : TransferCall) (tx : JValue) : JDict :=
  [("status", .str "success"),
   ("message", .str "Transfer completed successfully"),
   ("amount", .int c.amount),
   ("recipient", .str c.recipient.key),
   ("token", (data.lookup "mint").getD (.str "SOL")),
   ("transaction", tx)]

/-- Body of the `try` block of `SolanaTransferTool._arun`, with the list of
delegate calls made. -/
def transferBody (kit : TransferCall → Except PyExc JValue)
    (parsed : Except PyExc JValue) :
    Except PyExc JDict × List TransferCall :=
  match stage parsed with
  | .error e => (.error e, [])
  | .ok data =>
    match (validate_input data transferSchema).1 with
    | .error e => (.error e, [])
    | .ok _ =>
      match transferArgs data with
      | .error e => (.error e, [])
      | .ok c =>
        match kit c with
        | .error e => (.error e, [c])
        | .ok tx => (.ok (transferSuccess data c tx), [c])

/-- `SolanaTransferTool._arun`: the `try` body with the uniform
`except Exception` conversion to the error envelope. -/
def transfer_arun (kit : TransferCall → Except PyExc JValue)
    (parsed : Except PyExc JValue) : JDict × List TransferCall :=
  match transferBody kit parsed with
  | (.ok d, cs) => (d, cs)
  | (.error e, cs) => (errEnvelope e, cs)

/-! ## SolanaDeployTokenTool -/

/-- The schema declared in `SolanaDeployTokenTool._arun`. -/
def deploySchema : Schema :=
  [("decimals", ⟨[.pyint], true, some 0, some 9⟩),
   ("initialSupply", ⟨[.pyint], true, some 1, none⟩)]

/-- `data.get("decimals", 9)`. -/
def deployDecimals (data : JDict) : JValue :=
  (data.lookup "decimals").getD (.int 9)

/-- Body of the `try` block of `SolanaDeployTokenTool._arun`: the delegate
`deploy_token` receives only the decimals value, and the success dictionary
reports `token_details["mint"]` plus the decimals used. -/
def deployBody (kit : JValue → Except PyExc JValue)
    (parsed : Except PyExc JValue) : Except PyExc JDict × List JValue :=
  match stage parsed with
  | .error e => (.error e, [])
  | .ok data =>
    match (validate_input data deploySchema).1 with
    | .error e => (.error e, [])
    | .ok _ =>
      match kit (deployDecimals data) with
      | .error e => (.error e, [deployDecimals data])
      | .ok td =>
        match subscr td "mint" with
        | .error e => (.error e, [deployDecimals data])
        | .ok mint =>
          (.ok [("status", .str "success"),
                ("message", .str "Token deployed successfully"),
                ("mintAddress", mint),
                ("decimals", deployDecimals data)], [deployDecimals data])

/-- `SolanaDeployTokenTool._arun`. -/
def deploy_arun (kit : JValue → Except PyExc JValue)
    (parsed : Except PyExc JValue) : JDict × List JValue :=
  match deployBody kit parsed with
  | (.ok d, cs) => (d, cs)
  | (.error e, cs) => (errEnvelope e, cs)

/-! ## SolanaStakeTool -/

/-- `int(input)` on a string: the parsed integer, or a `ValueError`.
Modelled by `String.toInt?`; the Python error text quotes the literal, which
is abbreviated here to the literal itself. -/
def pyIntOfString (s : String) : Except PyExc Int :=
  match s.toInt? with
  | some n => .ok n
  | none =>
    .error ⟨"ValueError", "invalid literal for int() with base 10: " ++ s, none⟩

/-- `SolanaStakeTool._arun`: no declared schema; the raw input is parsed with
`int(...)` and passed to the `stake` delegate. -/
def stake_arun (kit : Int → Except PyExc JValue) (input : String) :
    JDict × List Int :=
  match pyIntOfString input with
  | .error e => (errEnvelope e, [])
  | .ok n =>
    match kit n with
    | .error e => (errEnvelope e, [n])
    | .ok r =>
      ([("status", .str "success"),
        ("message", .str "Assets staked successfully"),
        ("result", r)], [n])

/-! ## SolanaMeteoraDLMMTool -/

/-- `agentipy.utils.meteora_dlmm.types.ActivationType` (repository module not
in the snapshot): the enum the adapter maps the textual token onto. -/
inductive ActivationType where
  | Slot | Timestamp
deriving DecidableEq, Repr

/-- The schema declared in `SolanaMeteoraDLMMTool._arun`. -/
def meteoraSchema : Schema :=
  [("bin_step", ⟨[.pyint], true, none, none⟩),
   ("token_a_mint", ⟨[.pystr], true, none, none⟩),
   ("token_b_mint", ⟨[.pystr], true, none, none⟩),
   ("initial_price", ⟨[.pyfloat], true, none, none⟩),
   ("price_rounding_up", ⟨[.pybool], true, none, none⟩),
   ("fee_bps", ⟨[.pyint], true, none, none⟩),
   ("activation_type", ⟨[.pystr], true, none, none⟩),
   ("has_alpha_vault", ⟨[.pybool], true, none, none⟩),
   ("activation_point", ⟨[.pystr], false, none, none⟩)]

/-- `activation_type_mapping.get(data["activation_type"])` followed by the
`None` check: exactly `"Slot"` and `"Timestamp"` map to enum values, anything
else raises the descriptive `ValueError`. -/
def activationTypeOf (v : JValue) : Except PyExc ActivationType :=
  match v with
  | .str s =>
    if s = "Slot" then .ok .Slot
    else if s = "Timestamp" then .ok .Timestamp
    else .error ⟨"ValueError",
      "Invalid activation_type. Valid options are: Slot, Timestamp.", none⟩
  | _ => .error ⟨"ValueError",
      "Invalid activation_type. Valid options are: Slot, Timestamp.", none⟩

/-- Arguments of one `create_meteora_dlmm_pool` delegate call. -/
structure MeteoraCall where
  bin_step : JValue
  token_a_mint : JValue
  token_b_mint : JValue
  initial_price : JValue
  price_rounding_up : JValue
  fee_bps : JValue
  activation_type : ActivationType
  has_alpha_vault : JValue
  activation_point : JValue

/-- Argument extraction of `SolanaMeteoraDLMMTool._arun` after validation:
the activation type is transformed first, `activation_point` defaults to
`None`, the remaining kwargs are the raw validated values, read in the call
order with the first failure winning. -/
def meteoraArgs (data : JDict) : Except PyExc MeteoraCall :=
  match dictGet data "activation_type" with
  | .error e => .error e
  | .ok av =>
    match activationTypeOf av with
    | .error e => .error e
    | .ok actTy =>
      match dictGet data "bin_step", dictGet data "token_a_mint",
          dictGet data "token_b_mint", dictGet data "initial_price",
          dictGet data "price_rounding_up", dictGet data "fee_bps",
          dictGet data "has_alpha_vault" with
      | .ok bs, .ok ta, .ok tb, .ok ip, .ok pru, .ok fb, .ok hav =>
        .ok ⟨bs, ta, tb, ip, pru, fb, actTy, hav,
             (data.lookup "activation_point").getD .null⟩
      | .error e, _, _, _, _, _, _ => .error e
      | _, .error e, _, _, _, _, _ => .error e
      | _, _, .error e, _, _, _, _ => .error e
      | _, _, _, .error e, _, _, _ => .error e
      | _, _, _, _, .error e, _, _ => .error e
      | _, _, _, _, _, .error e, _ => .error e
      | _, _, _, _, _, _, .error e => .error e

/-- The error envelope of `SolanaMeteoraDLMMTool._arun`, which embeds the raw
input string in its message. -/
def meteoraErrEnvelope (raw : String) (e : PyExc) : JDict :=
  [("status", .str "error"),
   ("message", .str ("Failed to process input: " ++ raw ++ ". Error: " ++ e.msg)),
   ("code", .str e.codeOrUnknown)]

/-- Body of the `try` block of `SolanaMeteoraDLMMTool._arun`. -/
def meteoraBody (kit : MeteoraCall → Except PyExc JValue)
    (parsed : Except PyExc JValue) : Except PyExc JDict × List MeteoraCall :=
  match stage parsed with
  | .error e => (.error e, [])
  | .ok data =>
    match (validate_input data meteoraSchema).1 with
    | .error e => (.error e, [])
    | .ok _ =>
      match meteoraArgs data with
      | .error e => (.error e, [])
      | .ok c =>
        match kit c with
        | .error e => (.error e, [c])
        | .ok r =>
          (.ok [("status", .str "success"),
                ("message", .str "Meteora DLMM pool created successfully"),
                ("result", r)], [c])

/-- `SolanaMeteoraDLMMTool._arun`. -/
def meteora_arun (kit : MeteoraCall → Except PyExc JValue) (raw : String)
    (parsed : Except PyExc JValue) : JDict × List MeteoraCall :=
  match meteoraBody kit parsed with
  | (.ok d, cs) => (d, cs)
  | (.error e, cs) => (meteoraErrEnvelope raw e, cs)

/-! ## SolanaBurnAndCloseTool -/

/-- `SolanaBurnAndCloseTool._arun`: inline validation (the loop over the
single-element `required_fields` list is unrolled), then the
`burn_and_close_accounts` delegate. -/
def burnAndCloseBody (kit : String → Except PyExc JValue)
    (parsed : Except PyExc JValue) : Except PyExc JDict × List String :=
  match stage parsed with
  | .error e => (.error e, [])
  | .ok data =>
    match data.lookup "token_account" with
    | none =>
      (.error ⟨"ValueError", "Missing required field: token_account", none⟩, [])
    | some v =>
      match v with
      | .str s =>
        match kit s with
        | .error e => (.error e, [s])
        | .ok r =>
          (.ok [("status", .str "success"),
                ("message", .str "Token account burned and closed successfully."),
                ("result", r)], [s])
      | _ =>
        (.error ⟨"ValueError", "Token account must be a string", none⟩, [])

/-- `SolanaBurnAndCloseTool._arun`. -/
def burnAndClose_arun (kit : String → Except PyExc JValue)
    (parsed : Except PyExc JValue) : JDict × List String :=
  match burnAndCloseBody kit parsed with
  | (.ok d, cs) => (d, cs)
  | (.error e, cs) => (errEnvelope e, cs)

/-! ## CoingeckoGetTrendingTokensTool -/

/-- `CoingeckoGetTrendingTokensTool._arun`: no schema, no parsing; the
delegate `get_trending_tokens` is always called, and failures are reported in
a message-only envelope without `status` or `code` keys. -/
def coingecko_arun (kit : Unit → Except PyExc JValue) (input : String) :
    JDict × List Unit :=
  match kit () with
  | .ok t => ([("trending_tokens", t), ("message", .str "Success")], [()])
  | .error e =>
    ([("trending_tokens", .null),
      ("message", .str ("Error fetching trending tokens: " ++ e.msg))], [()])

/-! ## SolanaBalanceTool -/

/-- `SolanaBalanceTool._arun`: `Pubkey.from_string(input) if input else None`,
then the `get_balance` delegate; `input or "SOL"` in the success echo. -/
def balance_arun (kit : Option Pubkey → Except PyExc JValue) (input : String) :
    JDict × List (Option Pubkey) :=
  let addr := if input = "" then none else some (Pubkey.from_string input)
  match kit addr with
  | .error e => (errEnvelope e, [addr])
  | .ok b =>
    ([("status", .str "success"),
      ("balance", b),
      ("token", .str (if input = "" then "SOL" else input))], [addr])

/-! ## Registry / `create_solana_tools` -/

/-- The adapter classes defined in the module, in declaration order. -/
def moduleToolClasses : List String :=
  ["SolanaBalanceTool",
   "SolanaTransferTool",
   "SolanaDeployTokenTool",
   "SolanaTradeTool",
   "SolanaFaucetTool",
   "SolanaStakeTool",
   "SolanaGetWalletAddressTool",
   "SolanaCreateImageTool",
   "SolanaTPSCalculatorTool",
   "SolanaPumpFunTokenTool",
   "SolanaFetchPriceTool",
   "SolanaTokenDataTool",
   "SolanaTokenDataByTickerTool",
   "SolanaMeteoraDLMMTool",
   "SolanaRaydiumBuyTool",
   "SolanaRaydiumSellTool",
   "SolanaBurnAndCloseTool",
   "SolanaBurnAndCloseMultipleTool",
   "SolanaCreateGibworkTaskTool",
   "SolanaBuyUsingMoonshotTool",
   "SolanaSellUsingMoonshotTool",
   "SolanaPythGetPriceTool",
   "SolanaHeliusGetBalancesTool",
   "SolanaHeliusGetAddressNameTool",
   "SolanaHeliusGetNftEventsTool",
   "SolanaHeliusGetMintlistsTool",
   "SolanaHeliusGetNFTFingerprintTool",
   "SolanaHeliusGetActiveListingsTool",
   "SolanaHeliusGetNFTMetadataTool",
   "SolanaHeliusGetRawTransactionsTool",
   "SolanaHeliusGetParsedTransactionsTool",
   "SolanaHeliusGetParsedTransactionHistoryTool",
   "SolanaHeliusCreateWebhookTool",
   "SolanaHeliusGetAllWebhooksTool",
   "SolanaHeliusGetWebhookTool",
   "SolanaHeliusEditWebhookTool",
   "SolanaHeliusDeleteWebhookTool",
   "SolanaFetchTokenReportSummaryTool",
   "SolanaFetchTokenDetailedReportTool",
   "SolanaGetPumpCurveStateTool",
   "SolanaCalculatePumpCurvePriceTool",
   "SolanaBuyTokenTool",
   "SolanaSellTokenTool",
   "SolanaSNSResolveTool",
   "SolanaSNSRegisterDomainTool",
   "SolanaSNSGetFavouriteDomainTool",
   "SolanaSNSGetAllDomainsTool",
   "SolanaDeployCollectionTool",
   "SolanaGetMetaplexAssetTool",
   "SolanaGetMetaplexAssetsByCreatorTool",
   "SolanaGetMetaplexAssetsByAuthorityTool",
   "SolanaMintMetaplexCoreNFTTool",
   "SolanaDeBridgeCreateTransactionTool",
   "SolanaDeBridgeExecuteTransactionTool",
   "SolanaDeBridgeCheckTransactionStatusTool",
   "SolanaCybersCreateCoinTool",
   "SolanaGetTipAccounts",
   "SolanaGetRandomTipAccount",
   "SolanaGetBundleStatuses",
   "SolanaSendBundle",
   "SolanaGetInflightBundleStatuses",
   "SolanaSendTxn",
   "StorkGetPriceTool",
   "BackpackGetAccountBalancesTool",
   "BackpackRequestWithdrawalTool",
   "BackpackGetAccountSettingsTool",
   "BackpackUpdateAccountSettingsTool",
   "BackpackGetBorrowLendPositionsTool",
   "BackpackExecuteBorrowLendTool",
   "BackpackGetFillHistoryTool",
   "BackpackGetBorrowPositionHistoryTool",
   "BackpackGetFundingPaymentsTool",
   "BackpackGetOrderHistoryTool",
   "BackpackGetPnlHistoryTool",
   "BackpackGetSettlementHistoryTool",
   "BackpackGetUsersOpenOrdersTool",
   "BackpackExecuteOrderTool",
   "BackpackCancelOpenOrderTool",
   "BackpackGetOpenOrdersTool",
   "BackpackCancelOpenOrdersTool",
   "BackpackGetSupportedAssetsTool",
   "BackpackGetTickerInformationTool",
   "BackpackGetMarketsTool",
   "BackpackGetMarketTool",
   "BackpackGetTickersTool",
   "BackpackGetDepthTool",
   "BackpackGetKlinesTool",
   "BackpackGetMarkPriceTool",
   "BackpackGetOpenInterestTool",
   "BackpackGetFundingIntervalRatesTool",
   "BackpackGetStatusTool",
   "BackpackSendPingTool",
   "BackpackGetSystemTimeTool",
   "BackpackGetRecentTradesTool",
   "BackpackGetHistoricalTradesTool",
   "BackpackGetCollateralInfoTool",
   "BackpackGetAccountDepositsTool",
   "BackpackGetOpenPositionsTool",
   "BackpackGetBorrowHistoryTool",
   "BackpackGetInterestHistoryTool",
   "ClosePerpTradeShortTool",
   "ClosePerpTradeLongTool",
   "OpenPerpTradeLongTool",
   "OpenPerpTradeShortTool",
   "Create3LandCollectionTool",
   "Create3LandNFTTool",
   "CreateDriftUserAccountTool",
   "DepositToDriftUserAccountTool",
   "WithdrawFromDriftUserAccountTool",
   "TradeUsingDriftPerpAccountTool",
   "CheckIfDriftAccountExistsTool",
   "DriftUserAccountInfoTool",
   "GetAvailableDriftMarketsTool",
   "StakeToDriftInsuranceFundTool",
   "RequestUnstakeFromDriftInsuranceFundTool",
   "UnstakeFromDriftInsuranceFundTool",
   "DriftSwapSpotTokenTool",
   "GetDriftPerpMarketFundingRateTool",
   "GetDriftEntryQuoteOfPerpTradeTool",
   "GetDriftLendBorrowApyTool",
   "CreateDriftVaultTool",
   "UpdateDriftVaultDelegateTool",
   "UpdateDriftVaultTool",
   "GetDriftVaultInfoTool",
   "DepositIntoDriftVaultTool",
   "RequestWithdrawalFromDriftVaultTool",
   "WithdrawFromDriftVaultTool",
   "DeriveDriftVaultAddressTool",
   "TradeUsingDelegatedDriftVaultTool",
   "FlashOpenTradeTool",
   "FlashCloseTradeTool",
   "ResolveAllDomainsTool",
   "GetOwnedDomainsForTLDTool",
   "GetAllDomainsTLDsTool",
   "GetOwnedAllDomainsTool",
   "LightProtocolSendCompressedAirdropTool",
   "ManifestCreateMarketTool",
   "ManifestPlaceLimitOrderTool",
   "ManifestPlaceBatchOrdersTool",
   "ManifestCancelAllOrdersTool",
   "ManifestWithdrawAllTool",
   "OpenBookCreateMarketTool",
   "OrcaClosePositionTool",
   "OrcaCreateClmmTool",
   "OrcaCreateLiquidityPoolTool",
   "OrcaFetchPositionsTool",
   "OrcaOpenCenteredPositionTool",
   "OrcaOpenSingleSidedPositionTool",
   "CoingeckoGetTrendingTokensTool",
   "CoingeckoGetTrendingPoolsTool",
   "CoingeckoGetTopGainersTool",
   "CoingeckoGetTokenPriceDataTool",
   "CoingeckoGetTokenInfoTool",
   "CoingeckoGetLatestPoolsTool",
   "ElfaAiPingApiTool",
   "ElfaAiGetApiKeyStatusTool",
   "ElfaAiGetSmartMentionsTool",
   "ElfaAiGetTopMentionsByTickerTool",
   "ElfaAiSearchMentionsByKeywordsTool",
   "ElfaAiGetTrendingTokensTool",
   "ElfaAiGetSmartTwitterAccountStatsTool",
   "FluxBeamCreatePoolTool",
   "LuloLendTool",
   "LuloWithdrawTool"]

/-- The class of each instance in the list returned by `create_solana_tools`,
in list order. -/
def factoryClassNames : List String :=
  ["SolanaBalanceTool",
   "SolanaTransferTool",
   "SolanaDeployTokenTool",
   "SolanaTradeTool",
   "SolanaFaucetTool",
   "SolanaStakeTool",
   "SolanaPumpFunTokenTool",
   "SolanaCreateImageTool",
   "SolanaGetWalletAddressTool",
   "SolanaTPSCalculatorTool",
   "SolanaFetchPriceTool",
   "SolanaTokenDataTool",
   "SolanaTokenDataByTickerTool",
   "SolanaMeteoraDLMMTool",
   "SolanaRaydiumBuyTool",
   "SolanaRaydiumSellTool",
   "SolanaCreateGibworkTaskTool",
   "SolanaSellUsingMoonshotTool",
   "SolanaBuyUsingMoonshotTool",
   "SolanaPythGetPriceTool",
   "SolanaHeliusGetBalancesTool",
   "SolanaHeliusGetAddressNameTool",
   "SolanaHeliusGetNftEventsTool",
   "SolanaHeliusGetMintlistsTool",
   "SolanaHeliusGetNFTFingerprintTool",
   "SolanaHeliusGetActiveListingsTool",
   "SolanaHeliusGetNFTMetadataTool",
   "SolanaHeliusGetRawTransactionsTool",
   "SolanaHeliusGetParsedTransactionsTool",
   "SolanaHeliusGetParsedTransactionHistoryTool",
   "SolanaHeliusCreateWebhookTool",
   "SolanaHeliusGetAllWebhooksTool",
   "SolanaHeliusGetWebhookTool",
   "SolanaHeliusEditWebhookTool",
   "SolanaHeliusDeleteWebhookTool",
   "SolanaFetchTokenReportSummaryTool",
   "SolanaFetchTokenDetailedReportTool",
   "SolanaGetPumpCurveStateTool",
   "SolanaCalculatePumpCurvePriceTool",
   "SolanaBuyTokenTool",
   "SolanaSellTokenTool",
   "SolanaSNSGetAllDomainsTool",
   "SolanaSNSRegisterDomainTool",
   "SolanaSNSGetFavouriteDomainTool",
   "SolanaSNSResolveTool",
   "SolanaGetMetaplexAssetsByAuthorityTool",
   "SolanaGetMetaplexAssetsByCreatorTool",
   "SolanaGetMetaplexAssetTool",
   "SolanaMintMetaplexCoreNFTTool",
   "SolanaDeployCollectionTool",
   "SolanaDeBridgeCreateTransactionTool",
   "SolanaDeBridgeCheckTransactionStatusTool",
   "SolanaDeBridgeExecuteTransactionTool",
   "SolanaCybersCreateCoinTool",
   "SolanaGetTipAccounts",
   "SolanaGetRandomTipAccount",
   "SolanaGetBundleStatuses",
   "SolanaSendBundle",
   "SolanaGetInflightBundleStatuses",
   "SolanaSendTxn",
   "StorkGetPriceTool",
   "BackpackCancelOpenOrdersTool",
   "BackpackCancelOpenOrderTool",
   "BackpackGetBorrowLendPositionsTool",
   "BackpackGetBorrowPositionHistoryTool",
   "BackpackGetDepthTool",
   "BackpackGetFundingIntervalRatesTool",
   "BackpackGetFundingPaymentsTool",
   "BackpackGetHistoricalTradesTool",
   "BackpackGetKlinesTool",
   "BackpackGetMarkPriceTool",
   "BackpackGetMarketsTool",
   "BackpackGetOpenInterestTool",
   "BackpackGetOpenOrdersTool",
   "BackpackGetOrderHistoryTool",
   "BackpackGetPnlHistoryTool",
   "BackpackGetRecentTradesTool",
   "BackpackGetSettlementHistoryTool",
   "BackpackGetStatusTool",
   "BackpackGetSupportedAssetsTool",
   "BackpackGetSystemTimeTool",
   "BackpackGetTickerInformationTool",
   "BackpackGetTickersTool",
   "BackpackGetUsersOpenOrdersTool",
   "BackpackSendPingTool",
   "BackpackExecuteBorrowLendTool",
   "BackpackExecuteOrderTool",
   "BackpackGetFillHistoryTool",
   "BackpackGetAccountBalancesTool",
   "BackpackRequestWithdrawalTool",
   "BackpackGetAccountSettingsTool",
   "BackpackUpdateAccountSettingsTool",
   "BackpackGetCollateralInfoTool",
   "BackpackGetAccountDepositsTool",
   "BackpackGetOpenPositionsTool",
   "BackpackGetBorrowHistoryTool",
   "BackpackGetInterestHistoryTool",
   "BackpackGetMarketTool",
   "ClosePerpTradeLongTool",
   "ClosePerpTradeShortTool",
   "OpenPerpTradeLongTool",
   "OpenPerpTradeShortTool",
   "Create3LandCollectionTool",
   "Create3LandNFTTool",
   "CreateDriftUserAccountTool",
   "DepositToDriftUserAccountTool",
   "WithdrawFromDriftUserAccountTool",
   "TradeUsingDriftPerpAccountTool",
   "CheckIfDriftAccountExistsTool",
   "DriftUserAccountInfoTool",
   "GetAvailableDriftMarketsTool",
   "StakeToDriftInsuranceFundTool",
   "RequestUnstakeFromDriftInsuranceFundTool",
   "UnstakeFromDriftInsuranceFundTool",
   "DriftSwapSpotTokenTool",
   "GetDriftPerpMarketFundingRateTool",
   "GetDriftEntryQuoteOfPerpTradeTool",
   "GetDriftLendBorrowApyTool",
   "CreateDriftVaultTool",
   "UpdateDriftVaultDelegateTool",
   "UpdateDriftVaultTool",
   "GetDriftVaultInfoTool",
   "DepositIntoDriftVaultTool",
   "RequestWithdrawalFromDriftVaultTool",
   "WithdrawFromDriftVaultTool",
   "DeriveDriftVaultAddressTool",
   "TradeUsingDelegatedDriftVaultTool",
   "FlashCloseTradeTool",
   "FlashOpenTradeTool",
   "ResolveAllDomainsTool",
   "GetOwnedDomainsForTLDTool",
   "GetAllDomainsTLDsTool",
   "GetOwnedAllDomainsTool",
   "LightProtocolSendCompressedAirdropTool",
   "ManifestCreateMarketTool",
   "ManifestPlaceLimitOrderTool",
   "ManifestPlaceBatchOrdersTool",
   "ManifestCancelAllOrdersTool",
   "ManifestWithdrawAllTool",
   "OpenBookCreateMarketTool",
   "OrcaClosePositionTool",
   "OrcaCreateClmmTool",
   "OrcaCreateLiquidityPoolTool",
   "OrcaFetchPositionsTool",
   "OrcaOpenCenteredPositionTool",
   "OrcaOpenSingleSidedPositionTool",
   "CoingeckoGetTrendingTokensTool",
   "CoingeckoGetTrendingPoolsTool",
   "CoingeckoGetTopGainersTool",
   "CoingeckoGetTokenPriceDataTool",
   "CoingeckoGetTokenInfoTool",
   "CoingeckoGetLatestPoolsTool",
   "ElfaAiPingApiTool",
   "ElfaAiGetApiKeyStatusTool",
   "ElfaAiGetSmartMentionsTool",
   "ElfaAiGetTopMentionsByTickerTool",
   "ElfaAiSearchMentionsByKeywordsTool",
   "ElfaAiGetTrendingTokensTool",
   "ElfaAiGetSmartTwitterAccountStatsTool",
   "FluxBeamCreatePoolTool",
   "LuloLendTool",
   "LuloWithdrawTool"]

/-- For each position of the factory list, the index of that adapter class
in `moduleToolClasses` (declaration order). -/
def factoryDeclIdx : List Nat :=
  [0, 1, 2, 3, 4, 5, 9, 7, 6, 8, 10, 11, 12, 13, 14, 15, 18, 20, 19, 21,
   22, 23, 24, 25, 26, 27, 28, 29, 30, 31, 32, 33, 34, 35, 36, 37, 38, 39,
   40, 41, 42, 46, 44, 45, 43, 50, 49, 48, 51, 47, 52, 54, 53, 55, 56, 57,
   58, 59, 60, 61, 62, 79, 77, 67, 70, 85, 89, 71, 94, 86, 87, 82, 88, 78,
   72, 73, 93, 74, 90, 80, 92, 81, 84, 75, 91, 68, 76, 69, 63, 64, 65, 66,
   95, 96, 97, 98, 99, 83, 101, 100, 102, 103, 104, 105, 106, 107, 108,
   109, 110, 111, 112, 113, 114, 115, 116, 117, 118, 119, 120, 121, 122,
   123, 124, 125, 126, 127, 128, 130, 129, 131, 132, 133, 134, 135, 136,
   137, 138, 139, 140, 141, 142, 143, 144, 145, 146, 147, 148, 149, 150,
   151, 152, 153, 154, 155, 156, 157, 158, 159, 160, 161, 162, 163]

/-- `create_solana_tools(solana_kit)`: one instance per listed class, each
constructed with the same agent-kit instance (modelled as the pair of the
class name and the kit the instance is bound to). -/
def create_solana_tools {K : Type} (kit : K) : List (String × K) :=
  [("SolanaBalanceTool", kit),
   ("SolanaTransferTool", kit),
   ("SolanaDeployTokenTool", kit),
   ("SolanaTradeTool", kit),
   ("SolanaFaucetTool", kit),
   ("SolanaStakeTool", kit),
   ("SolanaPumpFunTokenTool", kit),
   ("SolanaCreateImageTool", kit),
   ("SolanaGetWalletAddressTool", kit),
   ("SolanaTPSCalculatorTool", kit),
   ("SolanaFetchPriceTool", kit),
   ("SolanaTokenDataTool", kit),
   ("SolanaTokenDataByTickerTool", kit),
   ("SolanaMeteoraDLMMTool", kit),
   ("SolanaRaydiumBuyTool", kit),
   ("SolanaRaydiumSellTool", kit),
   ("SolanaCreateGibworkTaskTool", kit),
   ("SolanaSellUsingMoonshotTool", kit),
   ("SolanaBuyUsingMoonshotTool", kit),
   ("SolanaPythGetPriceTool", kit),
   ("SolanaHeliusGetBalancesTool", kit),
   ("SolanaHeliusGetAddressNameTool", kit),
   ("SolanaHeliusGetNftEventsTool", kit),
   ("SolanaHeliusGetMintlistsTool", kit),
   ("SolanaHeliusGetNFTFingerprintTool", kit),
   ("SolanaHeliusGetActiveListingsTool", kit),
   ("SolanaHeliusGetNFTMetadataTool", kit),
   ("SolanaHeliusGetRawTransactionsTool", kit),
   ("SolanaHeliusGetParsedTransactionsTool", kit),
   ("SolanaHeliusGetParsedTransactionHistoryTool", kit),
   ("SolanaHeliusCreateWebhookTool", kit),
   ("SolanaHeliusGetAllWebhooksTool", kit),
   ("SolanaHeliusGetWebhookTool", kit),
   ("SolanaHeliusEditWebhookTool", kit),
   ("SolanaHeliusDeleteWebhookTool", kit),
   ("SolanaFetchTokenReportSummaryTool", kit),
   ("SolanaFetchTokenDetailedReportTool", kit),
   ("SolanaGetPumpCurveStateTool", kit),
   ("SolanaCalculatePumpCurvePriceTool", kit),
   ("SolanaBuyTokenTool", kit),
   ("SolanaSellTokenTool", kit),
   ("SolanaSNSGetAllDomainsTool", kit),
   ("SolanaSNSRegisterDomainTool", kit),
   ("SolanaSNSGetFavouriteDomainTool", kit),
   ("SolanaSNSResolveTool", kit),
   ("SolanaGetMetaplexAssetsByAuthorityTool", kit),
   ("SolanaGetMetaplexAssetsByCreatorTool", kit),
   ("SolanaGetMetaplexAssetTool", kit),
   ("SolanaMintMetaplexCoreNFTTool", kit),
   ("SolanaDeployCollectionTool", kit),
   ("SolanaDeBridgeCreateTransactionTool", kit),
   ("SolanaDeBridgeCheckTransactionStatusTool", kit),
   ("SolanaDeBridgeExecuteTransactionTool", kit),
   ("SolanaCybersCreateCoinTool", kit),
   ("SolanaGetTipAccounts", kit),
   ("SolanaGetRandomTipAccount", kit),
   ("SolanaGetBundleStatuses", kit),
   ("SolanaSendBundle", kit),
   ("SolanaGetInflightBundleStatuses", kit),
   ("SolanaSendTxn", kit),
   ("StorkGetPriceTool", kit),
   ("BackpackCancelOpenOrdersTool", kit),
   ("BackpackCancelOpenOrderTool", kit),
   ("BackpackGetBorrowLendPositionsTool", kit),
   ("BackpackGetBorrowPositionHistoryTool", kit),
   ("BackpackGetDepthTool", kit),
   ("BackpackGetFundingIntervalRatesTool", kit),
   ("BackpackGetFundingPaymentsTool", kit),
   ("BackpackGetHistoricalTradesTool", kit),
   ("BackpackGetKlinesTool", kit),
   ("BackpackGetMarkPriceTool", kit),
   ("BackpackGetMarketsTool", kit),
   ("BackpackGetOpenInterestTool", kit),
   ("BackpackGetOpenOrdersTool", kit),
   ("BackpackGetOrderHistoryTool", kit),
   ("BackpackGetPnlHistoryTool", kit),
   ("BackpackGetRecentTradesTool", kit),
   ("BackpackGetSettlementHistoryTool", kit),
   ("BackpackGetStatusTool", kit),
   ("BackpackGetSupportedAssetsTool", kit),
   ("BackpackGetSystemTimeTool", kit),
   ("BackpackGetTickerInformationTool", kit),
   ("BackpackGetTickersTool", kit),
   ("BackpackGetUsersOpenOrdersTool", kit),
   ("BackpackSendPingTool", kit),
   ("BackpackExecuteBorrowLendTool", kit),
   ("BackpackExecuteOrderTool", kit),
   ("BackpackGetFillHistoryTool", kit),
   ("BackpackGetAccountBalancesTool", kit),
   ("BackpackRequestWithdrawalTool", kit),
   ("BackpackGetAccountSettingsTool", kit),
   ("BackpackUpdateAccountSettingsTool", kit),
   ("BackpackGetCollateralInfoTool", kit),
   ("BackpackGetAccountDepositsTool", kit),
   ("BackpackGetOpenPositionsTool", kit),
   ("BackpackGetBorrowHistoryTool", kit),
   ("BackpackGetInterestHistoryTool", kit),
   ("BackpackGetMarketTool", kit),
   ("ClosePerpTradeLongTool", kit),
   ("ClosePerpTradeShortTool", kit),
   ("OpenPerpTradeLongTool", kit),
   ("OpenPerpTradeShortTool", kit),
   ("Create3LandCollectionTool", kit),
   ("Create3LandNFTTool", kit),
   ("CreateDriftUserAccountTool", kit),
   ("DepositToDriftUserAccountTool", kit),
   ("WithdrawFromDriftUserAccountTool", kit),
   ("TradeUsingDriftPerpAccountTool", kit),
   ("CheckIfDriftAccountExistsTool", kit),
   ("DriftUserAccountInfoTool", kit),
   ("GetAvailableDriftMarketsTool", kit),
   ("StakeToDriftInsuranceFundTool", kit),
   ("RequestUnstakeFromDriftInsuranceFundTool", kit),
   ("UnstakeFromDriftInsuranceFundTool", kit),
   ("DriftSwapSpotTokenTool", kit),
   ("GetDriftPerpMarketFundingRateTool", kit),
   ("GetDriftEntryQuoteOfPerpTradeTool", kit),
   ("GetDriftLendBorrowApyTool", kit),
   ("CreateDriftVaultTool", kit),
   ("UpdateDriftVaultDelegateTool", kit),
   ("UpdateDriftVaultTool", kit),
   ("GetDriftVaultInfoTool", kit),
   ("DepositIntoDriftVaultTool", kit),
   ("RequestWithdrawalFromDriftVaultTool", kit),
   ("WithdrawFromDriftVaultTool", kit),
   ("DeriveDriftVaultAddressTool", kit),
   ("TradeUsingDelegatedDriftVaultTool", kit),
   ("FlashCloseTradeTool", kit),
   ("FlashOpenTradeTool", kit),
   ("ResolveAllDomainsTool", kit),
   ("GetOwnedDomainsForTLDTool", kit),
   ("GetAllDomainsTLDsTool", kit),
   ("GetOwnedAllDomainsTool", kit),
   ("LightProtocolSendCompressedAirdropTool", kit),
   ("ManifestCreateMarketTool", kit),
   ("ManifestPlaceLimitOrderTool", kit),
   ("ManifestPlaceBatchOrdersTool", kit),
   ("ManifestCancelAllOrdersTool", kit),
   ("ManifestWithdrawAllTool", kit),
   ("OpenBookCreateMarketTool", kit),
   ("OrcaClosePositionTool", kit),
   ("OrcaCreateClmmTool", kit),
   ("OrcaCreateLiquidityPoolTool", kit),
   ("OrcaFetchPositionsTool", kit),
   ("OrcaOpenCenteredPositionTool", kit),
   ("OrcaOpenSingleSidedPositionTool", kit),
   ("CoingeckoGetTrendingTokensTool", kit),
   ("CoingeckoGetTrendingPoolsTool", kit),
   ("CoingeckoGetTopGainersTool", kit),
   ("CoingeckoGetTokenPriceDataTool", kit),
   ("CoingeckoGetTokenInfoTool", kit),
   ("CoingeckoGetLatestPoolsTool", kit),
   ("ElfaAiPingApiTool", kit),
   ("ElfaAiGetApiKeyStatusTool", kit),
   ("ElfaAiGetSmartMentionsTool", kit),
   ("ElfaAiGetTopMentionsByTickerTool", kit),
   ("ElfaAiSearchMentionsByKeywordsTool", kit),
   ("ElfaAiGetTrendingTokensTool", kit),
   ("ElfaAiGetSmartTwitterAccountStatsTool", kit),
   ("FluxBeamCreatePoolTool", kit),
   ("LuloLendTool", kit),
   ("LuloWithdrawTool", kit)]

/-! ## OpenBookCreateMarketTool -/

/-- The schema dict declared in `OpenBookCreateMarketTool._arun`.  The
adapter declares it but never passes it to `validate_input`. -/
def openBookSchema : Schema :=
  [("base_mint", ⟨[.pystr], true, none, none⟩),
   ("quote_mint", ⟨[.pystr], true, none, none⟩),
   ("lot_size", ⟨[.pyfloat], false, none, none⟩),
   ("tick_size", ⟨[.pyfloat], false, none, none⟩)]

/-- Arguments of one `create_openbook_market` delegate call. -/
structure OpenBookCall where
  base_mint : JValue
  quote_mint : JValue
  lot_size : JValue
  tick_size : JValue

/-- The kwargs of the `create_openbook_market` call:
`data["base_mint"]`, `data["quote_mint"]`, `data.get("lot_size", 1)`,
`data.get("tick_size", 0.01)`. -/
def openBookArgsOf (data : JDict) (bm qm : JValue) : OpenBookCall :=
  ⟨bm, qm, (data.lookup "lot_size").getD (.int 1),
   (data.lookup "tick_size").getD (.float (1 / 100))⟩

/-- Body of the `try` block of `OpenBookCreateMarketTool._arun`: no
`validate_input` call — the delegate is invoked directly on the parsed
input. -/
def openBookBody (kit : OpenBookCall → Except PyExc JValue)
    (parsed : Except PyExc JValue) : Except PyExc JDict × List OpenBookCall :=
  match stage parsed with
  | .error e => (.error e, [])
  | .ok data =>
    match dictGet data "base_mint" with
    | .error e => (.error e, [])
    | .ok bm =>
      match dictGet data "quote_mint" with
      | .error e => (.error e, [])
      | .ok qm =>
        match kit (openBookArgsOf data bm qm) with
        | .error e => (.error e, [openBookArgsOf data bm qm])
        | .ok r =>
          (.ok [("market_data", r), ("message", .str "Success")],
           [openBookArgsOf data bm qm])

/-- `OpenBookCreateMarketTool._arun`: failures are reported in a
message-only envelope with a null payload and no status or code keys. -/
def openbook_arun (kit : OpenBookCall → Except PyExc JValue)
    (parsed : Except PyExc JValue) : JDict × List OpenBookCall :=
  match openBookBody kit parsed with
  | (.ok d, cs) => (d, cs)
  | (.error e, cs) =>
    ([("market_data", .null),
      ("message", .str ("Error creating OpenBook market: " ++ e.msg))], cs)

/-! ## Jito tools: SolanaGetTipAccounts and SolanaSendTxn -/

/-- `SolanaGetTipAccounts._arun`: the delegate is always called; on any
failure the result is `{"accounts": None}` with no message, status, or
code key. -/
def getTipAccounts_arun (kit : Unit → Except PyExc JValue) :
    JDict × List Unit :=
  match kit () with
  | .ok r => ([("accounts", r)], [()])
  | .error _ => ([("accounts", .null)], [()])

/-- The schema declared in `SolanaSendTxn._arun`. -/
def sendTxnSchema : Schema :=
  [("txn_signature", ⟨[.pystr], true, none, none⟩),
   ("bundleOnly", ⟨[.pybool], true, none, none⟩)]

/-- Body of the `try` block of `SolanaSendTxn._arun`. -/
def sendTxnBody (kit : JValue × JValue → Except PyExc JValue)
    (parsed : Except PyExc JValue) :
    Except PyExc JDict × List (JValue × JValue) :=
  match stage parsed with
  | .error e => (.error e, [])
  | .ok data =>
    match (validate_input data sendTxnSchema).1 with
    | .error e => (.error e, [])
    | .ok _ =>
      match dictGet data "txn_signature" with
      | .error e => (.error e, [])
      | .ok sig =>
        match dictGet data "bundleOnly" with
        | .error e => (.error e, [])
        | .ok bo =>
          match kit (sig, bo) with
          | .error e => (.error e, [(sig, bo)])
          | .ok r => (.ok [("status", r)], [(sig, bo)])

/-- `SolanaSendTxn._arun`: on any failure the result is `{"status": None}`
with no message or code key. -/
def sendTxn_arun (kit : JValue × JValue → Except PyExc JValue)
    (parsed : Except PyExc JValue) : JDict × List (JValue × JValue) :=
  match sendTxnBody kit parsed with
  | (.ok d, cs) => (d, cs)
  | (.error _, cs) => ([("status", .null)], cs)

/-! ## Synchronous `_run` entry points -/

/-- What a Python call can do: raise, or return a value. -/
inductive RunOutcome where
  | raised (e : PyExc)
  | returned (r : JDict)

/-- The message of every embedded adapter's `_run`. -/
def notImplementedMsg : String :=
  "This tool only supports async execution via _arun. Please use the async interface."

def notImplementedExc : PyExc := ⟨"NotImplementedError", notImplementedMsg, none⟩

/-- `SolanaBalanceTool._run`. -/
def balance_run (input : String) : RunOutcome × List (Option Pubkey) :=
  (.raised notImplementedExc, [])

/-- `SolanaTransferTool._run`. -/
def transfer_run : RunOutcome × List TransferCall :=
  (.raised notImplementedExc, [])

/-- `SolanaDeployTokenTool._run`. -/
def deploy_run : RunOutcome × List JValue :=
  (.raised notImplementedExc, [])

/-- `SolanaStakeTool._run`. -/
def stake_run : RunOutcome × List Int :=
  (.raised notImplementedExc, [])

/-- `SolanaMeteoraDLMMTool._run`. -/
def meteora_run : RunOutcome × List MeteoraCall :=
  (.raised notImplementedExc, [])

/-- `SolanaBurnAndCloseTool._run`. -/
def burnAndClose_run (input : String) : RunOutcome × List String :=
  (.raised notImplementedExc, [])

/-- `CoingeckoGetTrendingTokensTool._run`. -/
def coingecko_run (input : String) : RunOutcome × List Unit :=
  (.raised notImplementedExc, [])

/-! ## Helper lemmas shared by the claim theorems -/

lemma transfer_arun_validation_error (kit : TransferCall → Except PyExc JValue)
    (data : JDict) (e : PyExc)
    (h : (validate_input data transferSchema).1 = .error e) :
    transfer_arun kit (.ok (.dict data)) = (errEnvelope e, []) := by
  simp only [transfer_arun, transferBody, stage, asDict, h]

lemma transfer_arun_success (kit : TransferCall → Except PyExc JValue)
    (data : JDict) (c : TransferCall) (tx : JValue)
    (hval : (validate_input data transferSchema).1 = .ok ())
    (hargs : transferArgs data = .ok c) (hkit : kit c = .ok tx) :
    transfer_arun kit (.ok (.dict data)) = (transferSuccess data c tx, [c]) := by
  simp only [transfer_arun, transferBody, stage, asDict, hval, hargs, hkit]

lemma deploy_arun_validation_error (kit : JValue → Except PyExc JValue)
    (data : JDict) (e : PyExc)
    (h : (validate_input data deploySchema).1 = .error e) :
    deploy_arun kit (.ok (.dict data)) = (errEnvelope e, []) := by
  simp only [deploy_arun, deployBody, stage, asDict, h]

lemma meteora_arun_validation_error (kit : MeteoraCall → Except PyExc JValue)
    (raw : String) (data : JDict) (e : PyExc)
    (h : (validate_input data meteoraSchema).1 = .error e) :
    meteora_arun kit raw (.ok (.dict data)) = (meteoraErrEnvelope raw e, []) := by
  simp only [meteora_arun, meteoraBody, stage, asDict, h]

lemma sendTxn_arun_validation_error (kit : JValue × JValue → Except PyExc JValue)
    (data : JDict) (e : PyExc)
    (h : (validate_input data sendTxnSchema).1 = .error e) :
    sendTxn_arun kit (.ok (.dict data)) = ([("status", .null)], []) := by
  simp only [sendTxn_arun, sendTxnBody, stage, asDict, h]

lemma openbook_arun_calls (kit : OpenBookCall → Except PyExc JValue)
    (data : JDict) (bm qm : JValue)
    (h1 : data.lookup "base_mint" = some bm)
    (h2 : data.lookup "quote_mint" = some qm) :
    (openbook_arun kit (.ok (.dict data))).2 = [openBookArgsOf data bm qm] := by
  simp only [openbook_arun, openBookBody, stage, asDict, dictGet, h1, h2]
  cases hk : kit (openBookArgsOf data bm qm) <;> simp [hk]

lemma openBookBody_ok (kit : OpenBookCall → Except PyExc JValue)
    (parsed : Except PyExc JValue) {d : JDict} {cs : List OpenBookCall}
    (h : openBookBody kit parsed = (.ok d, cs)) :
    d.lookup "message" = some (.str "Success") := by
  unfold openBookBody at h
  repeat' split at h
  all_goals injection h with h1 h2
  all_goals cases h1
  all_goals rfl

lemma openbook_arun_shape (kit : OpenBookCall → Except PyExc JValue)
    (parsed : Except PyExc JValue) :
    (∃ (e : PyExc) (cs : List OpenBookCall), openbook_arun kit parsed =
      ([("market_data", .null),
        ("message", .str ("Error creating OpenBook market: " ++ e.msg))], cs))
    ∨ (openbook_arun kit parsed).1.lookup "message" = some (.str "Success") := by
  unfold openbook_arun
  rcases hb : openBookBody kit parsed with ⟨f, cs⟩
  cases f with
  | error e => exact Or.inl ⟨e, cs, rfl⟩
  | ok d => exact Or.inr (openBookBody_ok kit parsed hb)

lemma transferBody_ok (kit : TransferCall → Except PyExc JValue)
    (parsed : Except PyExc JValue) {d : JDict} {cs : List TransferCall}
    (h : transferBody kit parsed = (.ok d, cs)) :
    d.lookup "status" = some (.str "success") := by
  unfold transferBody at h
  repeat' split at h
  all_goals injection h with h1 h2
  all_goals cases h1
  all_goals rfl

lemma transfer_arun_shape (kit : TransferCall → Except PyExc JValue)
    (parsed : Except PyExc JValue) :
    (∃ e, (transfer_arun kit parsed).1 = errEnvelope e)
    ∨ (transfer_arun kit parsed).1.lookup "status" = some (.str "success") := by
  unfold transfer_arun
  rcases hb : transferBody kit parsed with ⟨f, cs⟩
  cases f with
  | error e => exact Or.inl ⟨e, rfl⟩
  | ok d => exact Or.inr (transferBody_ok kit parsed hb)

lemma deployBody_ok (kit : JValue → Except PyExc JValue)
    (parsed : Except PyExc JValue) {d : JDict} {cs : List JValue}
    (h : deployBody kit parsed = (.ok d, cs)) :
    d.lookup "status" = some (.str "success") := by
  unfold deployBody at h
  repeat' split at h
  all_goals injection h with h1 h2
  all_goals cases h1
  all_goals rfl

lemma deploy_arun_shape (kit : JValue → Except PyExc JValue)
    (parsed : Except PyExc JValue) :
    (∃ e, (deploy_arun kit parsed).1 = errEnvelope e)
    ∨ (deploy_arun kit parsed).1.lookup "status" = some (.str "success") := by
  unfold deploy_arun
  rcases hb : deployBody kit parsed with ⟨f, cs⟩
  cases f with
  | error e => exact Or.inl ⟨e, rfl⟩
  | ok d => exact Or.inr (deployBody_ok kit parsed hb)

lemma stake_arun_shape (kit : Int → Except PyExc JValue) (input : String) :
    (∃ e, (stake_arun kit input).1 = errEnvelope e)
    ∨ (stake_arun kit input).1.lookup "status" = some (.str "success") := by
  unfold stake_arun
  repeat' split
  all_goals first
    | exact Or.inl ⟨_, rfl⟩
    | exact Or.inr rfl

lemma balance_arun_shape (kit : Option Pubkey → Except PyExc JValue)
    (input : String) :
    (∃ e, (balance_arun kit input).1 = errEnvelope e)
    ∨ (balance_arun kit input).1.lookup "status" = some (.str "success") := by
  simp only [balance_arun]
  repeat' split
  all_goals first
    | exact Or.inl ⟨_, rfl⟩
    | exact Or.inr rfl

lemma burnAndCloseBody_ok (kit : String → Except PyExc JValue)
    (parsed : Except PyExc JValue) {d : JDict} {cs : List String}
    (h : burnAndCloseBody kit parsed = (.ok d, cs)) :
    d.lookup "status" = some (.str "success") := by
  unfold burnAndCloseBody at h
  repeat' split at h
  all_goals injection h with h1 h2
  all_goals cases h1
  all_goals rfl

lemma burnAndClose_arun_shape (kit : String → Except PyExc JValue)
    (parsed : Except PyExc JValue) :
    (∃ e, (burnAndClose_arun kit parsed).1 = errEnvelope e)
    ∨ (burnAndClose_arun kit parsed).1.lookup "status" = some (.str "success") := by
  unfold burnAndClose_arun
  rcases hb : burnAndCloseBody kit parsed with ⟨f, cs⟩
  cases f with
  | error e => exact Or.inl ⟨e, rfl⟩
  | ok d => exact Or.inr (burnAndCloseBody_ok kit parsed hb)

lemma meteoraBody_ok (kit : MeteoraCall → Except PyExc JValue)
    (parsed : Except PyExc JValue) {d : JDict} {cs : List MeteoraCall}
    (h : meteoraBody kit parsed = (.ok d, cs)) :
    d.lookup "status" = some (.str "success") := by
  unfold meteoraBody at h
  repeat' split at h
  all_goals injection h with h1 h2
  all_goals cases h1
  all_goals rfl

lemma meteora_arun_shape (kit : MeteoraCall → Except PyExc JValue)
    (raw : String) (parsed : Except PyExc JValue) :
    (∃ e, (meteora_arun kit raw parsed).1 = meteoraErrEnvelope raw e)
    ∨ (meteora_arun kit raw parsed).1.lookup "status" = some (.str "success") := by
  unfold meteora_arun
  rcases hb : meteoraBody kit parsed with ⟨f, cs⟩
  cases f with
  | error e => exact Or.inl ⟨e, rfl⟩
  | ok d => exact Or.inr (meteoraBody_ok kit parsed hb)

/-! ## Claim theorems -/

/-- A Meteora DLMM input that passes schema validation but carries an
unrecognized `activation_type`. -/
def c1data : JDict :=
  [("bin_step", .int 20), ("token_a_mint", .str "So111"),
   ("token_b_mint", .str "USDC1"), ("initial_price", .float 1),
   ("price_rounding_up", .bool true), ("fee_bps", .int 300),
   ("activation_type", .str "Delayed"), ("has_alpha_vault", .bool false)]

/-- An OpenBook create-market input whose `base_mint` violates the adapter's
own declared schema (it is an int, the schema requires str). -/
def c1obdata : JDict := [("base_mint", .int 7), ("quote_mint", .str "Q")]

/-- C1 counterexample: the claimed equivalence fails in both directions.
Right-to-left: on `c1data` schema validation succeeds, yet the Meteora
adapter performs zero delegate calls (the post-validation `activation_type`
transformation fails) and returns an error result.  Left-to-right:
`OpenBookCreateMarketTool` declares a schema but never validates — on
`c1obdata`, which violates that schema, the delegate is still invoked
exactly once. -/
theorem c1_counterexample :
    (validate_input c1data meteoraSchema).1 = .ok ()
    ∧ (meteora_arun (fun _ => .ok .null) "x" (.ok (.dict c1data))).2 = []
    ∧ ((meteora_arun (fun _ => .ok .null) "x" (.ok (.dict c1data))).1).lookup "status"
        = some (.str "error")
    ∧ (validate_input c1obdata openBookSchema).1 =
        .error ⟨"ValueError", "Invalid type for field: base_mint", none⟩
    ∧ (openbook_arun (fun _ => .ok .null) (.ok (.dict c1obdata))).2 =
        [⟨.int 7, .str "Q", .int 1, .float (1 / 100)⟩] :=
  ⟨rfl, rfl, rfl, rfl, rfl⟩

/-- C1 (amended): adapters that call `validate_input` do so before their
delegate call and invoke the delegate only if validation of the parsed input
succeeded, with zero delegate calls whenever validation (or parsing) fails —
proved here for the transfer, deploy-token, Meteora and send-txn adapters.
This is not module-wide: `OpenBookCreateMarketTool` declares a schema dict
but never calls `validate_input` and invokes its delegate on unvalidated
input, schema-less adapters (e.g. stake) only parse, and validation success
does not guarantee invocation, since post-validation transformation may
still fail. -/
theorem c1_delegate_only_if_validated :
    (∀ kit data, (transfer_arun kit (.ok (.dict data))).2 ≠ [] →
      (validate_input data transferSchema).1 = .ok ())
    ∧ (∀ kit data e, (validate_input data transferSchema).1 = .error e →
      transfer_arun kit (.ok (.dict data)) = (errEnvelope e, []))
    ∧ (∀ kit pe, (transfer_arun kit (.error pe)).2 = [])
    ∧ (∀ kit data, (deploy_arun kit (.ok (.dict data))).2 ≠ [] →
      (validate_input data deploySchema).1 = .ok ())
    ∧ (∀ kit data e, (validate_input data deploySchema).1 = .error e →
      deploy_arun kit (.ok (.dict data)) = (errEnvelope e, []))
    ∧ (∀ kit pe, (deploy_arun kit (.error pe)).2 = [])
    ∧ (∀ kit raw data, (meteora_arun kit raw (.ok (.dict data))).2 ≠ [] →
      (validate_input data meteoraSchema).1 = .ok ())
    ∧ (∀ kit raw data e, (validate_input data meteoraSchema).1 = .error e →
      meteora_arun kit raw (.ok (.dict data)) = (meteoraErrEnvelope raw e, []))
    ∧ (∀ kit raw pe, (meteora_arun kit raw (.error pe)).2 = [])
    ∧ (∀ kit input, input.toInt? = none →
      stake_arun kit input =
        (errEnvelope
          ⟨"ValueError", "invalid literal for int() with base 10: " ++ input,
           none⟩, []))
    ∧ (∀ kit data, (sendTxn_arun kit (.ok (.dict data))).2 ≠ [] →
      (validate_input data sendTxnSchema).1 = .ok ())
    ∧ (∀ kit data e, (validate_input data sendTxnSchema).1 = .error e →
      sendTxn_arun kit (.ok (.dict data)) = ([("status", .null)], []))
    ∧ (∀ kit data bm qm, data.lookup "base_mint" = some bm →
      data.lookup "quote_mint" = some qm →
      (openbook_arun kit (.ok (.dict data))).2 = [openBookArgsOf data bm qm]) := by
  refine ⟨?_, transfer_arun_validation_error, fun kit pe => rfl,
    ?_, deploy_arun_validation_error, fun kit pe => rfl,
    ?_, meteora_arun_validation_error, fun kit raw pe => rfl,
    fun kit input h => by simp only [stake_arun, pyIntOfString, h],
    ?_, sendTxn_arun_validation_error, openbook_arun_calls⟩
  · intro kit data h
    cases hval : (validate_input data transferSchema).1 with
    | error e =>
      exact absurd (by rw [transfer_arun_validation_error kit data e hval]) h
    | ok u => cases u; rfl
  · intro kit data h
    cases hval : (validate_input data deploySchema).1 with
    | error e =>
      exact absurd (by rw [deploy_arun_validation_error kit data e hval]) h
    | ok u => cases u; rfl
  · intro kit raw data h
    cases hval : (validate_input data meteoraSchema).1 with
    | error e =>
      exact absurd (by rw [meteora_arun_validation_error kit raw data e hval]) h
    | ok u => cases u; rfl
  · intro kit data h
    cases hval : (validate_input data sendTxnSchema).1 with
    | error e =>
      exact absurd (by rw [sendTxn_arun_validation_error kit data e hval]) h
    | ok u => cases u; rfl

/-- Witness for C1: the transfer adapter on an input missing its required
`to` field returns the validation error envelope and makes no delegate
call. -/
theorem c1_witness :
    transfer_arun (fun _ => .ok .null) (.ok (.dict [("amount", .int 5)])) =
      (errEnvelope ⟨"ValueError", "Missing required field: to", none⟩, []) :=
  c1_delegate_only_if_validated.2.1 (fun _ => .ok .null) [("amount", .int 5)]
    ⟨"ValueError", "Missing required field: to", none⟩ rfl

/-- C2 counterexample: the Coingecko trending-tokens adapter converts a
delegate exception carrying `code="RATE_LIMITED"` into a result with no
`code` key, no `status` key, and only a prefixed message; the Jito
tip-accounts adapter goes further and converts the same exception into
`{"accounts": None}` with no message, status, or code key at all — the claim
that every adapter's error result carries an error-status signal, the
exception's message, and its code attribute is false. -/
theorem c2_counterexample :
    ((coingecko_arun
        (fun _ => .error ⟨"Exception", "boom", some "RATE_LIMITED"⟩) "").1).lookup "code"
      = none
    ∧ ((coingecko_arun
        (fun _ => .error ⟨"Exception", "boom", some "RATE_LIMITED"⟩) "").1).lookup "status"
      = none
    ∧ ((coingecko_arun
        (fun _ => .error ⟨"Exception", "boom", some "RATE_LIMITED"⟩) "").1).lookup "message"
      = some (.str "Error fetching trending tokens: boom")
    ∧ (getTipAccounts_arun
        (fun _ => .error ⟨"Exception", "boom", some "RATE_LIMITED"⟩)).1
      = [("accounts", .null)]
    ∧ ((getTipAccounts_arun
        (fun _ => .error ⟨"Exception", "boom", some "RATE_LIMITED"⟩)).1).lookup "message"
      = none
    ∧ ((getTipAccounts_arun
        (fun _ => .error ⟨"Exception", "boom", some "RATE_LIMITED"⟩)).1).lookup "code"
      = none :=
  ⟨rfl, rfl, rfl, rfl, rfl, rfl⟩

/-- C2 (amended): no adapter-defined asynchronous body lets an exception
escape — a result is always returned — but what the error result carries
varies by adapter family instead of being uniform: standard-envelope
adapters return status `"error"`, the exception's message, and its `code`
attribute defaulting to `"UNKNOWN_ERROR"` (a delegate failure surfaces
exactly that envelope); Coingecko/OpenBook-style adapters return a
message-only error result with a null payload and no status/code keys; and
the Jito-style adapters return only a null-valued payload key —
`{"accounts": None}` for tip accounts, `{"status": None}` for send-txn —
with no message or code at all. -/
theorem c2_all_exceptions_converted :
    (∀ e, (errEnvelope e).lookup "status" = some (.str "error")
      ∧ (errEnvelope e).lookup "message" = some (.str e.msg)
      ∧ (errEnvelope e).lookup "code" = some (.str (e.code.getD "UNKNOWN_ERROR")))
    ∧ (∀ kit parsed, (∃ e, (transfer_arun kit parsed).1 = errEnvelope e)
        ∨ (transfer_arun kit parsed).1.lookup "status" = some (.str "success"))
    ∧ (∀ kit parsed, (∃ e, (deploy_arun kit parsed).1 = errEnvelope e)
        ∨ (deploy_arun kit parsed).1.lookup "status" = some (.str "success"))
    ∧ (∀ kit input, (∃ e, (stake_arun kit input).1 = errEnvelope e)
        ∨ (stake_arun kit input).1.lookup "status" = some (.str "success"))
    ∧ (∀ kit input, (∃ e, (balance_arun kit input).1 = errEnvelope e)
        ∨ (balance_arun kit input).1.lookup "status" = some (.str "success"))
    ∧ (∀ kit parsed, (∃ e, (burnAndClose_arun kit parsed).1 = errEnvelope e)
        ∨ (burnAndClose_arun kit parsed).1.lookup "status" = some (.str "success"))
    ∧ (∀ kit raw parsed,
        (∃ e, (meteora_arun kit raw parsed).1 = meteoraErrEnvelope raw e)
        ∨ (meteora_arun kit raw parsed).1.lookup "status" = some (.str "success"))
    ∧ (∀ kit data c e, (validate_input data transferSchema).1 = .ok () →
        transferArgs data = .ok c → kit c = .error e →
        transfer_arun kit (.ok (.dict data)) = (errEnvelope e, [c]))
    ∧ (∀ kit input e, kit () = .error e →
        coingecko_arun kit input =
          ([("trending_tokens", .null),
            ("message", .str ("Error fetching trending tokens: " ++ e.msg))], [()]))
    ∧ (∀ kit parsed,
        (∃ (e : PyExc) (cs : List OpenBookCall), openbook_arun kit parsed =
          ([("market_data", .null),
            ("message", .str ("Error creating OpenBook market: " ++ e.msg))], cs))
        ∨ (openbook_arun kit parsed).1.lookup "message" = some (.str "Success"))
    ∧ (∀ kit e, kit () = .error e →
        getTipAccounts_arun kit = ([("accounts", .null)], [()]))
    ∧ (∀ kit data sig bo e, (validate_input data sendTxnSchema).1 = .ok () →
        data.lookup "txn_signature" = some sig →
        data.lookup "bundleOnly" = some bo → kit (sig, bo) = .error e →
        sendTxn_arun kit (.ok (.dict data)) = ([("status", .null)], [(sig, bo)])) := by
  refine ⟨fun e => ⟨rfl, rfl, rfl⟩, transfer_arun_shape, deploy_arun_shape,
    stake_arun_shape, balance_arun_shape, burnAndClose_arun_shape,
    meteora_arun_shape, ?_, ?_, openbook_arun_shape, ?_, ?_⟩
  · intro kit data c e hval hargs hkit
    simp only [transfer_arun, transferBody, stage, asDict, hval, hargs, hkit]
  · intro kit input e h
    simp only [coingecko_arun, h]
  · intro kit e h
    simp only [getTipAccounts_arun, h]
  · intro kit data sig bo e hval hsig hbo hk
    simp only [sendTxn_arun, sendTxnBody, stage, asDict, dictGet, hval, hsig,
      hbo, hk]

/-- Witness for C2: a Coingecko delegate failure at a concrete stub. -/
theorem c2_witness :
    coingecko_arun (fun _ => .error ⟨"Exception", "down", some "RATE_LIMITED"⟩) "" =
      ([("trending_tokens", .null),
        ("message", .str "Error fetching trending tokens: down")], [()]) :=
  c2_all_exceptions_converted.2.2.2.2.2.2.2.2.1
    (fun _ => .error ⟨"Exception", "down", some "RATE_LIMITED"⟩) "" _ rfl

/-- The input of the round-trip scenario. -/
def c3data : JDict := [("to", .str "ABC"), ("amount", .int 5)]

/-- The delegate call the round-trip scenario expects. -/
def c3call : TransferCall := ⟨⟨"ABC"⟩, 5, none⟩

/-- C3: for the transfer adapter, on input `{"to": "ABC", "amount": 5}`
validation succeeds, the `transfer` delegate is called exactly once with
recipient `"ABC"`, amount `5`, mint `None`, and the adapter returns a success
result echoing amount `5`, recipient `"ABC"`, and token `"SOL"`. -/
theorem c3_transfer_round_trip (kit : TransferCall → Except PyExc JValue)
    (tx : JValue) (h : kit c3call = .ok tx) :
    (validate_input c3data transferSchema).1 = .ok ()
    ∧ transfer_arun kit (.ok (.dict c3data)) =
      ([("status", .str "success"),
        ("message", .str "Transfer completed successfully"),
        ("amount", .int 5),
        ("recipient", .str "ABC"),
        ("token", .str "SOL"),
        ("transaction", tx)], [c3call]) := by
  refine ⟨rfl, ?_⟩
  have hs := transfer_arun_success kit c3data c3call tx rfl rfl h
  rw [hs]; rfl

/-- Witness for C3 at a concrete delegate stub. -/
theorem c3_witness :
    (validate_input c3data transferSchema).1 = .ok ()
    ∧ transfer_arun (fun _ => .ok (.str "sig")) (.ok (.dict c3data)) =
      ([("status", .str "success"),
        ("message", .str "Transfer completed successfully"),
        ("amount", .int 5),
        ("recipient", .str "ABC"),
        ("token", .str "SOL"),
        ("transaction", .str "sig")], [c3call]) :=
  c3_transfer_round_trip (fun _ => .ok (.str "sig")) (.str "sig") rfl

/-- C4: for every schema and input, a required field absent from the input
makes validation fail with a `Missing required field: <name>` message naming
a required-and-absent field (the first one, by fail-fast); the transfer
adapter then returns the error envelope with zero delegate calls, and so
does the burn-and-close adapter with its inline check. -/
theorem c4_missing_required_field :
    (∀ (data : JDict) (schema : Schema) (name : String) (spec : FieldSpec),
      (name, spec) ∈ schema → spec.required = true → data.lookup name = none →
      ∃ m, (validate_input data schema).1 =
          .error ⟨"ValueError", "Missing required field: " ++ m, none⟩
        ∧ ∃ spec2, (m, spec2) ∈ schema ∧ spec2.required = true
          ∧ data.lookup m = none)
    ∧ (∀ kit data e, (validate_input data transferSchema).1 = .error e →
        transfer_arun kit (.ok (.dict data)) = (errEnvelope e, []))
    ∧ (∀ kit data, data.lookup "token_account" = none →
        burnAndClose_arun kit (.ok (.dict data)) =
          (errEnvelope ⟨"ValueError", "Missing required field: token_account", none⟩,
           [])) := by
  refine ⟨?_, transfer_arun_validation_error, ?_⟩
  · intro data schema name spec hmem hreq hnone
    have hsome :
        (schema.find? fun p => p.2.required && (data.lookup p.1).isNone).isSome := by
      rw [List.find?_isSome]
      exact ⟨(name, spec), hmem, by simp [hreq, hnone]⟩
    obtain ⟨⟨m, spec2⟩, hfind⟩ := Option.isSome_iff_exists.mp hsome
    have hp0 := List.find?_some hfind
    have hp : (spec2.required && (data.lookup m).isNone) = true := hp0
    have hmem2 : (m, spec2) ∈ schema := List.mem_of_find?_eq_some hfind
    simp only [Bool.and_eq_true, Option.isNone_iff_eq_none] at hp
    have hfmr : firstMissingRequired data schema = some m := by
      unfold firstMissingRequired; rw [hfind]; rfl
    refine ⟨m, ?_, spec2, hmem2, hp.1, hp.2⟩
    unfold validate_input
    rw [hfmr]
  · intro kit data h
    simp only [burnAndClose_arun, burnAndCloseBody, stage, asDict, h]

/-- Witness for C4 at the concrete input `{"amount": 5}`. -/
theorem c4_witness :
    (∃ m, (validate_input [("amount", JValue.int 5)] transferSchema).1 =
        .error ⟨"ValueError", "Missing required field: " ++ m, none⟩
      ∧ ∃ spec2, (m, spec2) ∈ transferSchema ∧ spec2.required = true
        ∧ ([("amount", JValue.int 5)] : JDict).lookup m = none)
    ∧ transfer_arun (fun _ => .ok .null) (.ok (.dict [("amount", .int 5)])) =
        (errEnvelope ⟨"ValueError", "Missing required field: to", none⟩, [])
    ∧ burnAndClose_arun (fun _ => .ok .null) (.ok (.dict [("amount", .int 5)])) =
        (errEnvelope ⟨"ValueError", "Missing required field: token_account", none⟩,
         []) :=
  ⟨c4_missing_required_field.1 [("amount", .int 5)] transferSchema "to"
      ⟨[.pystr], true, none, none⟩ (by decide) rfl rfl,
   c4_missing_required_field.2.1 (fun _ => .ok .null) [("amount", .int 5)]
      ⟨"ValueError", "Missing required field: to", none⟩ rfl,
   c4_missing_required_field.2.2 (fun _ => .ok .null) [("amount", .int 5)] rfl⟩

/-- C5: declared numeric bounds are inclusive — a present numeric value
passes its per-field bound check exactly when it lies in `[min, max]` — a
bound violation (with required fields present and types conforming) fails
validation with a message identifying a bound-violating field; concretely,
transfer amount `0` fails its minimum of `1` with a message naming `amount`
and zero delegate calls, while deploy-token decimals `0` and `9` both
pass. -/
theorem c5_inclusive_bounds :
    (∀ (spec : FieldSpec) (v : JValue) (q : ℚ), numVal v = some q →
      (boundsOk spec v = true ↔
        ((∀ m, spec.min = some m → (m : ℚ) ≤ q)
          ∧ (∀ M, spec.max = some M → q ≤ (M : ℚ)))))
    ∧ (∀ (data : JDict) (schema : Schema),
        firstMissingRequired data schema = none →
        firstTypeViolation data schema = none →
        ∀ name spec v, (name, spec) ∈ schema → data.lookup name = some v →
        boundsOk spec v = false →
        ∃ m, (validate_input data schema).1 =
            .error ⟨"ValueError", "Invalid value for field: " ++ m, none⟩
          ∧ ∃ spec2 v2, (m, spec2) ∈ schema ∧ data.lookup m = some v2
            ∧ boundsOk spec2 v2 = false)
    ∧ (validate_input [("to", .str "ABC"), ("amount", .int 0)] transferSchema).1
        = .error ⟨"ValueError", "Invalid value for field: amount", none⟩
    ∧ (∀ kit, transfer_arun kit
          (.ok (.dict [("to", .str "ABC"), ("amount", .int 0)]))
        = (errEnvelope ⟨"ValueError", "Invalid value for field: amount", none⟩, []))
    ∧ (validate_input [("decimals", .int 0), ("initialSupply", .int 1000)]
        deploySchema).1 = .ok ()
    ∧ (validate_input [("decimals", .int 9), ("initialSupply", .int 1000)]
        deploySchema).1 = .ok () := by
  refine ⟨?_, ?_, rfl, ?_, rfl, rfl⟩
  · intro spec v q h
    unfold boundsOk
    rw [h]
    obtain ⟨t, r, mn, mx⟩ := spec
    cases mn <;> cases mx <;> simp
  · intro data schema hmr htv name spec v hmem hlook hbad
    have hsome : (schema.find? fun p =>
        match data.lookup p.1 with
        | some v => !(boundsOk p.2 v)
        | none => false).isSome := by
      rw [List.find?_isSome]
      refine ⟨(name, spec), hmem, ?_⟩
      simp only [hlook, hbad]
      rfl
    obtain ⟨⟨m, spec2⟩, hfind⟩ := Option.isSome_iff_exists.mp hsome
    have hp0 := List.find?_some hfind
    have hp : (match data.lookup m with
        | some v => !(boundsOk spec2 v)
        | none => false) = true := hp0
    have hmem2 : (m, spec2) ∈ schema := List.mem_of_find?_eq_some hfind
    cases hl : data.lookup m with
    | none => rw [hl] at hp; exact absurd hp (by simp)
    | some v2 =>
      rw [hl] at hp
      simp only [Bool.not_eq_true'] at hp
      have hfbv : firstBoundViolation data schema = some m := by
        unfold firstBoundViolation; rw [hfind]; rfl
      refine ⟨m, ?_, spec2, v2, hmem2, hl, hp⟩
      simp only [validate_input, hmr, htv, hfbv]
  · intro kit
    exact transfer_arun_validation_error kit _ _ rfl

/-- Witness for C5: the bound-violation branch at the concrete input
`{"to": "ABC", "amount": 0}` against the transfer schema. -/
theorem c5_witness :
    ∃ m, (validate_input [("to", JValue.str "ABC"), ("amount", JValue.int 0)]
        transferSchema).1 =
        .error ⟨"ValueError", "Invalid value for field: " ++ m, none⟩
      ∧ ∃ spec2 v2, (m, spec2) ∈ transferSchema
        ∧ ([("to", JValue.str "ABC"), ("amount", JValue.int 0)] : JDict).lookup m
            = some v2
        ∧ boundsOk spec2 v2 = false :=
  c5_inclusive_bounds.2.1 [("to", .str "ABC"), ("amount", .int 0)] transferSchema
    rfl rfl "amount" ⟨[.pyint], true, some 1, none⟩ (.int 0) (by decide) rfl
    (by decide)

/-- C6: the synchronous `_run` entry point of every embedded adapter raises
`NotImplementedError` with a message directing the caller to the asynchronous
interface, and performs zero delegate calls. -/
theorem c6_sync_run_not_implemented :
    transfer_run = (.raised notImplementedExc, [])
    ∧ deploy_run = (.raised notImplementedExc, [])
    ∧ stake_run = (.raised notImplementedExc, [])
    ∧ meteora_run = (.raised notImplementedExc, [])
    ∧ (∀ input, balance_run input = (.raised notImplementedExc, []))
    ∧ (∀ input, burnAndClose_run input = (.raised notImplementedExc, []))
    ∧ (∀ input, coingecko_run input = (.raised notImplementedExc, []))
    ∧ notImplementedExc.kind = "NotImplementedError"
    ∧ notImplementedExc.msg =
        "This tool only supports async execution via _arun. Please use the async interface." :=
  ⟨rfl, rfl, rfl, rfl, fun _ => rfl, fun _ => rfl, fun _ => rfl, rfl, rfl⟩

/-- C7 counterexample: the factory list does not contain an instance of every
adapter class — `SolanaBurnAndCloseTool` is declared in the module but never
registered — and the factory order is not the declaration order. -/
theorem c7_counterexample :
    ((create_solana_tools (0 : Nat)).map Prod.fst).count "SolanaBurnAndCloseTool" = 0
    ∧ moduleToolClasses.count "SolanaBurnAndCloseTool" = 1
    ∧ ((create_solana_tools (0 : Nat)).map Prod.fst ≠ moduleToolClasses) := by
  refine ⟨rfl, rfl, fun h => ?_⟩
  have h1 : ((create_solana_tools (0 : Nat)).map Prod.fst).length = 162 := rfl
  have h2 : moduleToolClasses.length = 164 := rfl
  rw [h] at h1; rw [h2] at h1; exact absurd h1 (by decide)

set_option maxHeartbeats 3200000 in
/-- C7 (amended): `create_solana_tools` returns one instance per adapter
class of the module except `SolanaBurnAndCloseTool` and
`SolanaBurnAndCloseMultipleTool` (declaration indices 16 and 17, never
registered), each bound to the same agent-kit instance; every factory entry
is a distinct declared class (the position map `factoryDeclIdx` into the
declaration order is injective and covers every index except 16 and 17),
and the factory order differs from the declaration order. -/
theorem c7_factory_registry {K : Type} (kit : K) :
    (create_solana_tools kit).map Prod.snd = List.replicate 162 kit
    ∧ (create_solana_tools kit).map Prod.fst = factoryClassNames
    ∧ factoryClassNames = factoryDeclIdx.map (fun i => moduleToolClasses.getD i "")
    ∧ factoryDeclIdx.Nodup
    ∧ (factoryDeclIdx.all fun i => i < 164) = true
    ∧ ((List.range 164).all fun i =>
        i == 16 || i == 17 || factoryDeclIdx.contains i) = true
    ∧ factoryDeclIdx.contains 16 = false
    ∧ factoryDeclIdx.contains 17 = false
    ∧ moduleToolClasses.length = 164
    ∧ moduleToolClasses.getD 16 "" = "SolanaBurnAndCloseTool"
    ∧ moduleToolClasses.getD 17 "" = "SolanaBurnAndCloseMultipleTool"
    ∧ factoryClassNames ≠ moduleToolClasses := by
  refine ⟨rfl, rfl, rfl, by decide, by decide, by decide, by decide, by decide,
    rfl, rfl, rfl, fun h => ?_⟩
  have h1 : factoryClassNames.length = 162 := rfl
  have h2 : moduleToolClasses.length = 164 := rfl
  rw [h] at h1; rw [h2] at h1; exact absurd h1 (by decide)

/-- A fully valid Meteora DLMM input with `activation_type = "Slot"`. -/
def c8slotData : JDict :=
  [("bin_step", .int 25), ("token_a_mint", .str "MintA"),
   ("token_b_mint", .str "MintB"), ("initial_price", .float 2),
   ("price_rounding_up", .bool false), ("fee_bps", .int 100),
   ("activation_type", .str "Slot"), ("has_alpha_vault", .bool true)]

/-- A Meteora DLMM input that passes validation with an unrecognized
`activation_type` token. -/
def c8badData : JDict :=
  [("bin_step", .int 25), ("token_a_mint", .str "MintA"),
   ("token_b_mint", .str "MintB"), ("initial_price", .float 2),
   ("price_rounding_up", .bool false), ("fee_bps", .int 100),
   ("activation_type", .str "Delayed"), ("has_alpha_vault", .bool true)]

/-- C8: the Meteora adapter maps `activation_type` to the internal enum with
exactly `"Slot"` and `"Timestamp"` accepted; any other string makes the
adapter return an error result whose message names the valid options, with
zero `create_meteora_dlmm_pool` calls, while an accepted token reaches the
delegate as the mapped enum value. -/
theorem c8_activation_type_mapping :
    activationTypeOf (.str "Slot") = .ok .Slot
    ∧ activationTypeOf (.str "Timestamp") = .ok .Timestamp
    ∧ (∀ s, s ≠ "Slot" → s ≠ "Timestamp" →
        activationTypeOf (.str s) =
          .error ⟨"ValueError",
            "Invalid activation_type. Valid options are: Slot, Timestamp.", none⟩)
    ∧ (∀ kit raw data s, (validate_input data meteoraSchema).1 = .ok () →
        data.lookup "activation_type" = some (.str s) →
        s ≠ "Slot" → s ≠ "Timestamp" →
        meteora_arun kit raw (.ok (.dict data)) =
          (meteoraErrEnvelope raw
            ⟨"ValueError",
              "Invalid activation_type. Valid options are: Slot, Timestamp.",
              none⟩, []))
    ∧ ((meteora_arun (fun _ => .ok .null) "r" (.ok (.dict c8slotData))).2).map
        (fun c => c.activation_type) = [ActivationType.Slot] := by
  refine ⟨rfl, rfl, ?_, ?_, rfl⟩
  · intro s h1 h2
    simp [activationTypeOf, h1, h2]
  · intro kit raw data s hval hlook h1 h2
    have hargs : meteoraArgs data =
        .error ⟨"ValueError",
          "Invalid activation_type. Valid options are: Slot, Timestamp.",
          none⟩ := by
      simp [meteoraArgs, dictGet, hlook, activationTypeOf, h1, h2, Except.bind]
    simp only [meteora_arun, meteoraBody, stage, asDict, hval, hargs]

/-- Witness for C8 at the concrete unrecognized token `"Delayed"`. -/
theorem c8_witness :
    meteora_arun (fun _ => .ok .null) "xyz" (.ok (.dict c8badData)) =
      (meteoraErrEnvelope "xyz"
        ⟨"ValueError",
          "Invalid activation_type. Valid options are: Slot, Timestamp.",
          none⟩, []) :=
  c8_activation_type_mapping.2.2.2.1 (fun _ => .ok .null) "xyz" c8badData
    "Delayed" rfl rfl (by decide) (by decide)

/-- C9: validation only inspects — its post-call input state equals the
input, key for key and value for value — and optional-field defaulting is
the adapter's, applied after validation: the transfer adapter passes
`mint = None` to the delegate when the optional `mint` key is absent, and
the success echo defaults `token` to `"SOL"` from the unmutated input. -/
theorem c9_validation_no_mutation :
    (∀ data schema, (validate_input data schema).2 = data)
    ∧ (∀ data c, transferArgs data = .ok c → data.lookup "mint" = none →
        c.mint = none)
    ∧ (∀ kit data c tx, (validate_input data transferSchema).1 = .ok () →
        transferArgs data = .ok c → kit c = .ok tx →
        (transfer_arun kit (.ok (.dict data))).1.lookup "token"
          = some ((data.lookup "mint").getD (.str "SOL"))) := by
  refine ⟨?_, ?_, ?_⟩
  · intro data schema
    unfold validate_input
    repeat' split
    all_goals rfl
  · intro data c h hm
    unfold transferArgs at h
    rw [hm] at h
    simp only [mintArg] at h
    repeat' split at h
    all_goals cases h
    all_goals rfl
  · intro kit data c tx hval hargs hkit
    rw [transfer_arun_success kit data c tx hval hargs hkit]
    rfl

/-- Witness for C9 at a concrete mint-less transfer input. -/
theorem c9_witness :
    (transfer_arun (fun _ => .ok .null)
        (.ok (.dict [("to", .str "XYZ"), ("amount", .int 2)]))).1.lookup "token"
      = some ((([("to", JValue.str "XYZ"), ("amount", JValue.int 2)] : JDict).lookup
          "mint").getD (.str "SOL")) :=
  c9_validation_no_mutation.2.2 (fun _ => .ok .null)
    [("to", .str "XYZ"), ("amount", .int 2)] ⟨⟨"XYZ"⟩, 2, none⟩ .null rfl rfl rfl

/-- The deploy-token input of the C10 witness. -/
def c10data : JDict := [("decimals", .int 6), ("initialSupply", .int 1000)]

/-- C10: on any validated input the deploy-token adapter calls the delegate
exactly once with only the decimals value; the validated `initialSupply`
never influences the delegate call or the result (two validated inputs
agreeing on `decimals` produce identical outcomes); the success result
reports the delegate's `mint` value and the decimals used. -/
theorem c10_deploy_ignores_initial_supply :
    (∀ kit data, (validate_input data deploySchema).1 = .ok () →
      (deploy_arun kit (.ok (.dict data))).2 = [deployDecimals data])
    ∧ (∀ kit d1 d2, (validate_input d1 deploySchema).1 = .ok () →
        (validate_input d2 deploySchema).1 = .ok () →
        d1.lookup "decimals" = d2.lookup "decimals" →
        deploy_arun kit (.ok (.dict d1)) = deploy_arun kit (.ok (.dict d2)))
    ∧ (∀ kit data td mint, (validate_input data deploySchema).1 = .ok () →
        kit (deployDecimals data) = .ok td → subscr td "mint" = .ok mint →
        deploy_arun kit (.ok (.dict data)) =
          ([("status", .str "success"),
            ("message", .str "Token deployed successfully"),
            ("mintAddress", mint),
            ("decimals", deployDecimals data)], [deployDecimals data])) := by
  refine ⟨?_, ?_, ?_⟩
  · intro kit data hval
    simp only [deploy_arun, deployBody, stage, asDict, hval]
    cases hk : kit (deployDecimals data) with
    | error e => simp [hk]
    | ok td =>
      cases hs : subscr td "mint" with
      | error e => simp [hk, hs]
      | ok mint => simp [hk, hs]
  · intro kit d1 d2 h1 h2 hd
    have hdd : deployDecimals d1 = deployDecimals d2 := by
      unfold deployDecimals; rw [hd]
    simp only [deploy_arun, deployBody, stage, asDict, h1, h2, hdd]
  · intro kit data td mint hval hk hs
    simp only [deploy_arun, deployBody, stage, asDict, hval, hk, hs]

/-- Witness for C10 at the concrete input `{"decimals": 6, "initialSupply": 1000}`. -/
theorem c10_witness :
    deploy_arun (fun _ => .ok (.dict [("mint", .str "Mint1")]))
        (.ok (.dict c10data)) =
      ([("status", .str "success"),
        ("message", .str "Token deployed successfully"),
        ("mintAddress", .str "Mint1"),
        ("decimals", .int 6)], [JValue.int 6]) :=
  c10_deploy_ignores_initial_supply.2.2 (fun _ => .ok (.dict [("mint", .str "Mint1")]))
    c10data (.dict [("mint", .str "Mint1")]) (.str "Mint1") rfl rfl rfl

end Agentipy
